import Mathlib

/-!
Verification of the motion-path drawing module
(source/blender/draw/intern/draw_anim_viz.c).

The development shallowly embeds the two functions the claims are about,
set_motion_path_color and draw_motion_path_instance, over exact rational
arithmetic.  Machine floats appearing in the source only ever scale by the
exactly representable constants 0.25, 0.5, 1.0 or add the small integers
1.0 and 5.0, so rationals model them faithfully.  Theme-color queries and
the immediate-mode GPU calls are modelled symbolically: the embedding
records which query or draw call the C code performs, with which
arguments, instead of performing it.
-/

namespace AnimViz

/-- A 3D vector of rationals, standing for the float[3] vectors of the
source (positions and RGB colors). -/
structure Vec3 where
  x : ℚ
  y : ℚ
  z : ℚ
deriving DecidableEq

/-- The zero vector, used as the out-of-bounds default for reads from the
point buffer (the C code never performs such a read in the cases the
claims cover). -/
def v3zero : Vec3 := ⟨0, 0, 0⟩

/-- BLI math routine mul_v3_v3fl: componentwise scaling of a vector by a
scalar. -/
def mul_v3_v3fl (v : Vec3) (f : ℚ) : Vec3 := ⟨f * v.x, f * v.y, f * v.z⟩

/-- BLI math routine copy_v3_v3: copies a vector. -/
def copy_v3_v3 (v : Vec3) : Vec3 := v

/-- The theme color identifiers the module queries from the theme
provider. -/
inductive ThemeColorID
  | TH_WIRE
  | TH_BONE_POSE
  | TH_CFRAME
  | TH_BACK
  | TH_TEXT_HI
deriving DecidableEq

/-- The per-vertex color chosen by set_motion_path_color, recorded
symbolically: either a concrete custom color (the float triple the C code
converts to bytes and submits), or the theme query the C code performs
(UI_GetThemeColorBlend3ubv, resp. UI_GetThemeColorBlendShade3ubv) with its
arguments. -/
inductive PathVertColor
  | custom (c : Vec3)
  | themeBlend (src blend : ThemeColorID) (intensity : ℚ)
  | themeBlendShade (src blend : ThemeColorID) (intensity : ℚ) (ofs : ℤ)
deriving DecidableEq

/-- The scene context; the only field this module reads is the current
frame (the CFRA macro expands to scene.r.cfra). -/
structure Scene where
  cfra : ℤ
deriving DecidableEq

/-- The CFRA macro of the source. -/
def CFRA (scene : Scene) : ℤ := scene.cfra

/-- The object owning the path: its selection bit (ob.flag and SELECT),
its world matrix obmat and its cached inverse imat. -/
structure Object where
  selected : Bool
  obmat : Matrix (Fin 4) (Fin 4) ℚ
  imat : Matrix (Fin 4) (Fin 4) ℚ

/-- A pose channel; the module only reads the BONE_SELECTED bit of
pchan.bone.flag. -/
structure PoseChannel where
  bone_selected : Bool
deriving DecidableEq

/-- bAnimVizSettings.path_type: either frames around the current frame
(MOTIONPATH_TYPE_ACFRA) or the explicit display range
(MOTIONPATH_TYPE_RANGE). -/
inductive MotionPathType
  | ACFRA
  | RANGE
deriving DecidableEq

/-- The visualization settings (bAnimVizSettings) fields this module
reads.  The MOTIONPATH_VIEW_KFRAS bit of path_viewflag is modelled as the
boolean viewflag_kfras. -/
structure bAnimVizSettings where
  path_type : MotionPathType
  path_step : ℤ
  path_sf : ℤ
  path_ef : ℤ
  path_bc : ℤ
  path_ac : ℤ
  viewflag_kfras : Bool
deriving DecidableEq

/-- The motion-path cache (bMotionPath).  points is the possibly NULL
array of per-frame vertices (only the co field of bMotionPathVert is read,
so a vertex is a Vec3); start_frame and end_frame delimit the inclusive
cached range; flag_custom and flag_lines are the MOTIONPATH_FLAG_CUSTOM
and MOTIONPATH_FLAG_LINES bits of flag. -/
structure bMotionPath where
  points : Option (List Vec3)
  start_frame : ℤ
  end_frame : ℤ
  color : Vec3
  line_thickness : ℚ
  flag_custom : Bool
  flag_lines : Bool
deriving DecidableEq

/-- The SET_INTENSITY macro of the source (division is exact rational
division; the C float division by zero never occurs within the loop
bounds the drawing code uses). -/
def SET_INTENSITY (A B C mn mx : ℚ) : ℚ := ((1 - ((C - B) / (C - A))) * (mx - mn)) + mn

/-- Shallow embedding of set_motion_path_color.  Inputs are the arguments
of the C function (the attribute handle, used only to address the GPU
attribute, is dropped); the result is the color the function submits via
immAttrib3ubv, recorded as a PathVertColor.  In the custom branches the C
code converts the given float triple to bytes with rgb_float_to_uchar;
the embedding keeps the triple at value level. -/
def set_motion_path_color (scene : Scene) (mpath : bMotionPath) (i : ℤ) (sel : Bool)
    (sfra efra : ℤ) (prev_color frame_color next_color : Vec3) : PathVertColor :=
  let frame : ℤ := sfra + i
  let blend_base : ThemeColorID :=
    if (frame - CFRA scene).natAbs = 1 then ThemeColorID.TH_CFRAME else ThemeColorID.TH_BACK
  if frame < CFRA scene then
    if mpath.flag_custom then
      PathVertColor.custom prev_color
    else
      let intensity : ℚ :=
        if sel then SET_INTENSITY (sfra : ℚ) (i : ℚ) ((CFRA scene : ℤ) : ℚ) (25/100) (75/100)
        else SET_INTENSITY (sfra : ℚ) (i : ℚ) ((CFRA scene : ℤ) : ℚ) (68/100) (92/100)
      PathVertColor.themeBlend ThemeColorID.TH_WIRE blend_base intensity
  else if frame > CFRA scene then
    if mpath.flag_custom then
      PathVertColor.custom next_color
    else
      let intensity : ℚ :=
        if sel then SET_INTENSITY ((CFRA scene : ℤ) : ℚ) (i : ℚ) (efra : ℚ) (25/100) (75/100)
        else SET_INTENSITY ((CFRA scene : ℤ) : ℚ) (i : ℚ) (efra : ℚ) (68/100) (92/100)
      PathVertColor.themeBlend ThemeColorID.TH_BONE_POSE blend_base intensity
  else
    if mpath.flag_custom then
      PathVertColor.custom frame_color
    else
      let intensity : ℚ := if sel then 50/100 else 99/100
      PathVertColor.themeBlendShade ThemeColorID.TH_CFRAME ThemeColorID.TH_BACK intensity 10

/-- The requested window of draw_motion_path_instance before clamping:
around the current frame for MOTIONPATH_TYPE_ACFRA, the explicit display
range otherwise. -/
def requested_range (scene : Scene) (avs : bAnimVizSettings) : ℤ × ℤ :=
  match avs.path_type with
  | MotionPathType.ACFRA => (CFRA scene - avs.path_bc, CFRA scene + avs.path_ac)
  | MotionPathType.RANGE => (avs.path_sf, avs.path_ef)

/-- The two endpoint clamps of draw_motion_path_instance: the start is
raised to the start of the cache, the end lowered to the end of the
cache. -/
def clamp_range (mpath : bMotionPath) (r : ℤ × ℤ) : ℤ × ℤ :=
  let sfra := if r.1 < mpath.start_frame then mpath.start_frame else r.1
  let efra := if r.2 > mpath.end_frame then mpath.end_frame else r.2
  (sfra, efra)

/-- The resolved draw range (sfra, efra) computed by
draw_motion_path_instance before its out-of-bounds test. -/
def resolved_range (scene : Scene) (avs : bAnimVizSettings) (mpath : bMotionPath) : ℤ × ℤ :=
  clamp_range mpath (requested_range scene avs)

/-- The abort condition of draw_motion_path_instance: the whole clamped
range is out of the cached bounds. -/
def range_out_of_bounds (mpath : bMotionPath) (r : ℤ × ℤ) : Prop :=
  mpath.end_frame < r.1 ∨ r.2 < mpath.start_frame

instance (mpath : bMotionPath) (r : ℤ × ℤ) : Decidable (range_out_of_bounds mpath r) := by
  unfold range_out_of_bounds
  infer_instance

/-- The mutable global GL state draw_motion_path_instance touches: the
current line width and the current point size. -/
structure GLState where
  lineWidth : ℚ
  pointSize : ℚ
deriving DecidableEq

/-- One mutation of the global GL state (a glLineWidth or glPointSize
call). -/
inductive GLEvent
  | setLineWidth (w : ℚ)
  | setPointSize (s : ℚ)
deriving DecidableEq

/-- Applies one GL state mutation. -/
def applyGLEvent (st : GLState) : GLEvent → GLState
  | GLEvent.setLineWidth w => { st with lineWidth := w }
  | GLEvent.setPointSize s => { st with pointSize := s }

/-- Applies a sequence of GL state mutations in order. -/
def applyGLEvents (st : GLState) (evs : List GLEvent) : GLState :=
  evs.foldl applyGLEvent st

/-- The uniform color of the step-dot pass: the custom path color, or the
TH_TEXT_HI theme color. -/
inductive StepDotColor
  | customCol (c : Vec3)
  | theme (t : ThemeColorID)
deriving DecidableEq

/-- The selection flag computed inside the vertex loop of the source:
the BONE_SELECTED bit of the pose channel when drawing a bone path, the
SELECT bit of the object otherwise. -/
def selFlag (ob : Object) (pchan : Option PoseChannel) : Bool :=
  match pchan with
  | some pc => pc.bone_selected
  | none => ob.selected

/-- The loop for (i = 0, mpv = mpv_start; i < len; i++, mpv++) reading
mpv.co: the positions at buffer indices sind, sind+1, ..., sind+len-1. -/
def pathVerts (pts : List Vec3) (sind len : ℕ) : List Vec3 :=
  (List.range len).map (fun i => pts.getD (sind + i) v3zero)

/-- The line-strip loop: for each i < len it colors the vertex with
set_motion_path_color (with the loop index i, the resolved bounds and the
three precomputed custom colors) and submits the position at buffer index
sind+i. -/
def lineStripVerts (scene : Scene) (ob : Object) (pchan : Option PoseChannel)
    (mpath : bMotionPath) (sfra efra : ℤ) (prev_color frame_color next_color : Vec3)
    (pts : List Vec3) (sind len : ℕ) : List (PathVertColor × Vec3) :=
  (List.range len).map (fun (i : ℕ) =>
    (set_motion_path_color scene mpath (Int.ofNat i) (selFlag ob pchan) sfra efra
        prev_color frame_color next_color,
     pts.getD (sind + i) v3zero))

/-- The step-dot loop for (i = 0, mpv = mpv_start; i < len; i += stepsize,
mpv += stepsize): emits the position at buffer index sind+i for
i = 0, step, 2*step, ... while i < len.  A non-positive C stepsize makes
the C loop diverge (and the preceding division is undefined); the
embedding returns the empty list in that case, which no claim relies
on. -/
def stepLoop (pts : List Vec3) (sind len step i : ℕ) : List Vec3 :=
  if _h : i < len ∧ 0 < step then
    pts.getD (sind + i) v3zero :: stepLoop pts sind len step (i + step)
  else
    []
termination_by len - i
decreasing_by
  simp_wf
  omega

/-- Everything draw_motion_path_instance does beyond its early returns:
the vertices submitted by each of its immediate-mode passes (the line
strip only when MOTIONPATH_FLAG_LINES is set, the black per-frame dots,
the step dots, the current-frame marker when emitted), the vertex count
declared to immBegin for the step-dot pass, the uniform color of the
step-dot pass, the sequence of GL line-width and point-size mutations it
performs, and the output values of the three structures it received
pointers to. -/
structure DrawResult where
  lineStrip : Option (List (PathVertColor × Vec3))
  blackDots : List Vec3
  stepDots : List Vec3
  stepDotsDeclared : ℤ
  stepDotColor : StepDotColor
  cfraMarker : Option Vec3
  glEvents : List GLEvent
  ob_out : Object
  mpath_out : bMotionPath
  avs_out : bAnimVizSettings

/-- Modelled from the spec: the BLI math routine invert_m4_m4, whose
source lies outside this module, computes the matrix inverse of a 4x4
matrix (adjugate over determinant for an invertible input). -/
def invert_m4_m4 (m : Matrix (Fin 4) (Fin 4) ℚ) : Matrix (Fin 4) (Fin 4) ℚ :=
  (m.det)⁻¹ • m.adjugate

/-- Shallow embedding of draw_motion_path_instance.  It takes the GL
state current on entry (the function reads the line width with
glGetFloatv before doing anything else) and returns none on either early
return — in which case the C function has performed no draw call and no
state mutation — and otherwise some DrawResult describing every draw call
and mutation it performs. -/
def draw_motion_path_instance (scene : Scene) (ob : Object) (pchan : Option PoseChannel)
    (avs : bAnimVizSettings) (mpath : bMotionPath) (gl : GLState) : Option DrawResult :=
  let stepsize : ℤ := avs.path_step
  let prev_color : Vec3 := mul_v3_v3fl mpath.color (25/100)
  let frame_color : Vec3 := mul_v3_v3fl mpath.color (50/100)
  let next_color : Vec3 := copy_v3_v3 mpath.color
  let old_width : ℚ := gl.lineWidth
  let r : ℤ × ℤ := resolved_range scene avs mpath
  let sfra : ℤ := r.1
  let efra : ℤ := r.2
  if range_out_of_bounds mpath r then
    none
  else
    let len : ℤ := efra - sfra
    if len ≤ 0 ∨ mpath.points = none then
      none
    else
      let pts : List Vec3 := mpath.points.getD []
      let sind : ℕ := (sfra - mpath.start_frame).toNat
      let lenN : ℕ := len.toNat
      let strip : Option (List (PathVertColor × Vec3)) :=
        if mpath.flag_lines then
          some (lineStripVerts scene ob pchan mpath sfra efra
                  prev_color frame_color next_color pts sind lenN)
        else
          none
      let glLine : List GLEvent :=
        if mpath.flag_lines then
          [GLEvent.setLineWidth mpath.line_thickness, GLEvent.setLineWidth old_width]
        else
          []
      let marker : Option Vec3 :=
        if avs.viewflag_kfras = true ∧ sfra < CFRA scene ∧ CFRA scene ≤ efra then
          some (pts.getD (sind + (CFRA scene - sfra).toNat) v3zero)
        else
          none
      let glMarker : List GLEvent :=
        if avs.viewflag_kfras = true ∧ sfra < CFRA scene ∧ CFRA scene ≤ efra then
          [GLEvent.setPointSize (mpath.line_thickness + 5)]
        else
          []
      some
        { lineStrip := strip
          blackDots := pathVerts pts sind lenN
          stepDots := stepLoop pts sind lenN stepsize.toNat 0
          stepDotsDeclared := (len + stepsize - 1).tdiv stepsize
          stepDotColor :=
            if mpath.flag_custom then StepDotColor.customCol mpath.color
            else StepDotColor.theme ThemeColorID.TH_TEXT_HI
          cfraMarker := marker
          glEvents := glLine ++ [GLEvent.setPointSize (mpath.line_thickness + 1)] ++ glMarker
          ob_out := { ob with imat := invert_m4_m4 ob.obmat }
          mpath_out := mpath
          avs_out := avs }

/-- The length len = efra - sfra of the resolved range, as a natural
number. -/
def rangeLen (scene : Scene) (avs : bAnimVizSettings) (mpath : bMotionPath) : ℕ :=
  ((resolved_range scene avs mpath).2 - (resolved_range scene avs mpath).1).toNat

/-- The start index sind = sfra - mpath.start_frame into the point
buffer, as a natural number. -/
def startIndex (scene : Scene) (avs : bAnimVizSettings) (mpath : bMotionPath) : ℕ :=
  ((resolved_range scene avs mpath).1 - mpath.start_frame).toNat

/-! Concrete example data used by the witnesses and counterexamples. -/

/-- A scene whose current frame is 5. -/
def exScene : Scene := ⟨5⟩

/-- A scene whose current frame is 6. -/
def exScene6 : Scene := ⟨6⟩

/-- An unselected object with identity matrices. -/
def exObj : Object := ⟨false, 1, 1⟩

/-- A GL state with line width 1 and point size 1. -/
def exGL : GLState := ⟨1, 1⟩

/-- A motion-path cache over the inclusive frame range [1, 100] (the
point buffer itself is irrelevant to the range claims). -/
def exCache : bMotionPath := ⟨some [], 1, 100, v3zero, 1, false, false⟩

/-- Visualization settings requesting the explicit window [90, 120]. -/
def exWin : bAnimVizSettings := ⟨MotionPathType.RANGE, 1, 90, 120, 0, 0, false⟩

/-- Visualization settings requesting the explicit window [150, 200],
fully right of the cached range of exCache. -/
def exWinOut : bAnimVizSettings := ⟨MotionPathType.RANGE, 1, 150, 200, 0, 0, false⟩

/-- Visualization settings requesting the explicit window [100, 120],
overlapping the cached range of exCache in exactly one frame. -/
def exWinOne : bAnimVizSettings := ⟨MotionPathType.RANGE, 1, 100, 120, 0, 0, false⟩

/-- A motion-path cache over [1, 100] carrying the custom-color flag and
the line flag, with a nontrivial base color. -/
def exCacheCustom : bMotionPath := ⟨some [], 1, 100, ⟨1, 1/2, 1/4⟩, 2, true, true⟩

/-- An 11-entry point buffer whose entry i has x-coordinate i. -/
def exPts : List Vec3 := (List.range 11).map (fun i => ⟨(i : ℚ), 0, 0⟩)

/-- A motion-path cache over the inclusive frame range [0, 10] with the
11-entry point buffer exPts, line thickness 2, and both the custom-color
and the line flag set. -/
def exCachePts : bMotionPath := ⟨some exPts, 0, 10, ⟨1, 1/2, 1/4⟩, 2, true, true⟩

/-- Visualization settings requesting the explicit window [5, 10] with
step 2 and keyframe view enabled. -/
def exWinMid : bAnimVizSettings := ⟨MotionPathType.RANGE, 2, 5, 10, 0, 0, true⟩

/-! Helper lemmas about the step-dot loop and ceiling division. -/

/-- Closed form of the step-dot loop: starting at index i with a positive
step, it emits exactly the points at indices sind + i + k * step for
k below the ceiling of (len - i) / step. -/
theorem stepLoop_eq_range (pts : List Vec3) (sind step : ℕ) (hstep : 0 < step) :
    ∀ fuel len i, len - i ≤ fuel →
      stepLoop pts sind len step i =
        (List.range ((len - i + step - 1) / step)).map
          (fun k => pts.getD (sind + i + k * step) v3zero) := by
  intro fuel
  induction fuel with
  | zero =>
    intro len i hle
    rw [stepLoop]
    rw [dif_neg (by omega : ¬(i < len ∧ 0 < step))]
    rw [(by omega : len - i = 0)]
    rw [Nat.div_eq_of_lt (by omega : 0 + step - 1 < step)]
    rfl
  | succ m ih =>
    intro len i hle
    rw [stepLoop]
    by_cases hil : i < len
    · rw [dif_pos ⟨hil, hstep⟩]
      rw [ih len (i + step) (by omega)]
      have hc : (len - i + step - 1) / step = (len - (i + step) + step - 1) / step + 1 := by
        rcases Nat.lt_or_ge len (i + step) with hlt | hge
        · rw [(by omega : len - (i + step) = 0)]
          rw [Nat.div_eq_of_lt (by omega : 0 + step - 1 < step)]
          rw [(by omega : len - i + step - 1 = (len - i - 1) + step)]
          rw [Nat.add_div_right _ hstep]
          rw [Nat.div_eq_of_lt (by omega : len - i - 1 < step)]
        · rw [(by omega : len - i + step - 1 = (len - i - 1) + step)]
          rw [Nat.add_div_right _ hstep]
          rw [(by omega : len - (i + step) + step - 1 = len - i - 1)]
      rw [hc]
      rw [List.range_succ_eq_map, List.map_cons, List.map_map]
      congr 1
      · congr 1
        omega
      · apply List.map_congr_left
        intro k _
        simp only [Function.comp_apply]
        congr 1
        rw [Nat.succ_mul]
        omega
    · rw [dif_neg (by omega : ¬(i < len ∧ 0 < step))]
      rw [(by omega : len - i = 0)]
      rw [Nat.div_eq_of_lt (by omega : 0 + step - 1 < step)]
      rfl

/-- The step-dot loop started at index 0 emits the points at indices
sind + k * step for k below (len + step - 1) / step. -/
theorem stepLoop_from_zero (pts : List Vec3) (sind len step : ℕ) (hstep : 0 < step) :
    stepLoop pts sind len step 0 =
      (List.range ((len + step - 1) / step)).map (fun k => pts.getD (sind + k * step) v3zero) := by
  have h := stepLoop_eq_range pts sind step hstep len len 0 (by omega)
  simpa using h

/-- The defining bounds of ceiling division: L ⌈/⌉ S is the least count c
with L ≤ c * S, and its predecessor covers less than L. -/
theorem ceilDiv_bounds (L S : ℕ) (hS : 0 < S) (hL : 0 < L) :
    (L ⌈/⌉ S - 1) * S < L ∧ L ≤ (L ⌈/⌉ S) * S := by
  have h3 : L ≤ S * (L ⌈/⌉ S) := by simpa [smul_eq_mul] using le_smul_ceilDiv (b := L) hS
  constructor
  · by_contra hcon
    push_neg at hcon
    have h2 : L ⌈/⌉ S ≤ L ⌈/⌉ S - 1 :=
      (ceilDiv_le_iff_le_mul hS).2 (by linarith [Nat.mul_comm (L ⌈/⌉ S - 1) S])
    have h4 : 0 < L ⌈/⌉ S := by
      rcases Nat.eq_zero_or_pos (L ⌈/⌉ S) with h | h
      · rw [h] at h3; simp at h3; omega
      · exact h
    omega
  · rw [Nat.mul_comm]
    exact h3

/-! The claims. -/

/-- Claim C1: for every requested window that overlaps the cached range,
the resolved draw range [sfra, efra] computed by
draw_motion_path_instance (the function resolved_range, which it calls)
is a subset of [mpath.start_frame, mpath.end_frame] and a subset of the
requested window, and is nonempty. -/
theorem C1_resolved_range_subset (scene : Scene) (avs : bAnimVizSettings) (mpath : bMotionPath)
    (hov1 : (requested_range scene avs).1 ≤ mpath.end_frame)
    (hov2 : mpath.start_frame ≤ (requested_range scene avs).2)
    (hreq : (requested_range scene avs).1 ≤ (requested_range scene avs).2)
    (hwf : mpath.start_frame ≤ mpath.end_frame) :
    mpath.start_frame ≤ (resolved_range scene avs mpath).1 ∧
    (resolved_range scene avs mpath).2 ≤ mpath.end_frame ∧
    (requested_range scene avs).1 ≤ (resolved_range scene avs mpath).1 ∧
    (resolved_range scene avs mpath).2 ≤ (requested_range scene avs).2 ∧
    (resolved_range scene avs mpath).1 ≤ (resolved_range scene avs mpath).2 := by
  unfold resolved_range clamp_range
  dsimp only
  split_ifs <;> omega

/-- Witness for C1 at the example of the spec: cache range [1, 100] and
requested window [90, 120] resolve to [90, 100]. -/
theorem C1_resolved_range_subset_witness :
    resolved_range exScene exWin exCache = (90, 100) ∧
    (exCache.start_frame ≤ (resolved_range exScene exWin exCache).1 ∧
     (resolved_range exScene exWin exCache).2 ≤ exCache.end_frame ∧
     (requested_range exScene exWin).1 ≤ (resolved_range exScene exWin exCache).1 ∧
     (resolved_range exScene exWin exCache).2 ≤ (requested_range exScene exWin).2 ∧
     (resolved_range exScene exWin exCache).1 ≤ (resolved_range exScene exWin exCache).2) :=
  ⟨by decide,
   C1_resolved_range_subset exScene exWin exCache (by decide) (by decide) (by decide) (by decide)⟩

/-- Claim C2: for every requested window lying entirely outside the
cached range, draw_motion_path_instance returns without issuing any draw
call and without signalling an error: the embedding returns none, which
carries no draw call, no GL mutation and no object update. -/
theorem C2_outside_window_silent_noop (scene : Scene) (ob : Object) (pchan : Option PoseChannel)
    (avs : bAnimVizSettings) (mpath : bMotionPath) (gl : GLState)
    (h : (requested_range scene avs).2 < mpath.start_frame ∨
         mpath.end_frame < (requested_range scene avs).1) :
    draw_motion_path_instance scene ob pchan avs mpath gl = none := by
  have hb : range_out_of_bounds mpath (resolved_range scene avs mpath) := by
    unfold range_out_of_bounds resolved_range clamp_range
    dsimp only
    split_ifs <;> omega
  unfold draw_motion_path_instance
  simp [hb]

/-- Witness for C2 at the example of the spec: cache range [1, 100] and
requested window [150, 200] produce no draw calls. -/
theorem C2_outside_window_silent_noop_witness :
    exCache.end_frame < (requested_range exScene exWinOut).1 ∧
    draw_motion_path_instance exScene exObj none exWinOut exCache exGL = none :=
  ⟨by decide,
   C2_outside_window_silent_noop exScene exObj none exWinOut exCache exGL (Or.inr (by decide))⟩

/-- Counterexample to claim C3 as stated: with cache [0, 10], requested
window [5, 10] and current frame 5, the keyframe-view flag is set and
CFRA = 5 lies inside the resolved range [5, 10], yet no current-frame
marker is emitted, because the source tests sfra < CFRA strictly. -/
theorem C3_counterexample :
    (draw_motion_path_instance exScene exObj none exWinMid exCachePts exGL).map
        (fun r => r.cfraMarker) = some none ∧
    exWinMid.viewflag_kfras = true ∧
    (resolved_range exScene exWinMid exCachePts).1 ≤ CFRA exScene ∧
    CFRA exScene ≤ (resolved_range exScene exWinMid exCachePts).2 := by
  refine ⟨by decide, by decide, by decide, by decide⟩

/-- Claim C3 as amended: on every call that reaches the drawing stage,
the oversized current-frame marker is emitted if and only if the
keyframe-view flag is set and sfra < CFRA ≤ efra — the comparison with
the resolved start is strict, so no marker appears when the current frame
sits exactly at the start of the resolved range. -/
theorem C3_marker_iff_amended (scene : Scene) (ob : Object) (pchan : Option PoseChannel)
    (avs : bAnimVizSettings) (mpath : bMotionPath) (gl : GLState)
    (h : (draw_motion_path_instance scene ob pchan avs mpath gl).isSome = true) :
    (draw_motion_path_instance scene ob pchan avs mpath gl).map
        (fun r => r.cfraMarker.isSome) =
      some (decide (avs.viewflag_kfras = true ∧
                    (resolved_range scene avs mpath).1 < CFRA scene ∧
                    CFRA scene ≤ (resolved_range scene avs mpath).2)) := by
  unfold draw_motion_path_instance at h ⊢
  dsimp only at h ⊢
  split_ifs at h ⊢
  all_goals simp_all

/-- Witness for the amended C3: with current frame 6 strictly inside the
resolved range [5, 10] and the keyframe-view flag set, the marker is
emitted. -/
theorem C3_marker_iff_amended_witness :
    (draw_motion_path_instance exScene6 exObj none exWinMid exCachePts exGL).isSome = true ∧
    (draw_motion_path_instance exScene6 exObj none exWinMid exCachePts exGL).map
        (fun r => r.cfraMarker.isSome) =
      some (decide (exWinMid.viewflag_kfras = true ∧
                    (resolved_range exScene6 exWinMid exCachePts).1 < CFRA exScene6 ∧
                    CFRA exScene6 ≤ (resolved_range exScene6 exWinMid exCachePts).2)) :=
  ⟨by decide,
   C3_marker_iff_amended exScene6 exObj none exWinMid exCachePts exGL (by decide)⟩

/-- Claim C4: on every call that reaches the drawing stage with step
S ≥ 1 and resolved range length L = efra - sfra, the step-dot pass emits
exactly L ⌈/⌉ S dots (ceiling division), at the buffer indices of frames
sfra, sfra + S, sfra + 2S, ...; the count declared to immBegin equals the
same ceiling; and the ceiling bounds witness that when S does not divide
L evenly the final partial group still contributes the one dot at its
first frame. -/
theorem C4_step_dot_count (scene : Scene) (ob : Object) (pchan : Option PoseChannel)
    (avs : bAnimVizSettings) (mpath : bMotionPath) (gl : GLState)
    (hstep : 1 ≤ avs.path_step)
    (h : (draw_motion_path_instance scene ob pchan avs mpath gl).isSome = true) :
    (draw_motion_path_instance scene ob pchan avs mpath gl).map (fun r => r.stepDots) =
      some ((List.range (rangeLen scene avs mpath ⌈/⌉ avs.path_step.toNat)).map
              (fun k => (mpath.points.getD []).getD
                (startIndex scene avs mpath + k * avs.path_step.toNat) v3zero)) ∧
    (draw_motion_path_instance scene ob pchan avs mpath gl).map (fun r => r.stepDots.length) =
      some (rangeLen scene avs mpath ⌈/⌉ avs.path_step.toNat) ∧
    (draw_motion_path_instance scene ob pchan avs mpath gl).map (fun r => r.stepDotsDeclared) =
      some ((rangeLen scene avs mpath ⌈/⌉ avs.path_step.toNat : ℕ) : ℤ) ∧
    (rangeLen scene avs mpath ⌈/⌉ avs.path_step.toNat - 1) * avs.path_step.toNat <
      rangeLen scene avs mpath ∧
    rangeLen scene avs mpath ≤
      (rangeLen scene avs mpath ⌈/⌉ avs.path_step.toNat) * avs.path_step.toNat := by
  have hS : 0 < avs.path_step.toNat := by omega
  unfold rangeLen startIndex
  unfold draw_motion_path_instance at h ⊢
  dsimp only at h ⊢
  by_cases hb : range_out_of_bounds mpath (resolved_range scene avs mpath)
  · rw [if_pos hb] at h
    simp at h
  · rw [if_neg hb] at h ⊢
    by_cases hlen : ((resolved_range scene avs mpath).2 - (resolved_range scene avs mpath).1 ≤ 0 ∨
        mpath.points = none)
    · rw [if_pos hlen] at h
      simp at h
    · rw [if_neg hlen] at h ⊢
      push_neg at hlen
      obtain ⟨hpos, hpts⟩ := hlen
      have hL : 0 <
          ((resolved_range scene avs mpath).2 - (resolved_range scene avs mpath).1).toNat := by
        omega
      refine ⟨?_, ?_, ?_, ?_, ?_⟩
      · simp only [Option.map_some']
        congr 1
        rw [stepLoop_from_zero _ _ _ _ hS, Nat.ceilDiv_eq_add_pred_div]
      · simp only [Option.map_some']
        congr 1
        rw [stepLoop_from_zero _ _ _ _ hS, Nat.ceilDiv_eq_add_pred_div,
            List.length_map, List.length_range]
      · simp only [Option.map_some']
        congr 1
        have e1 : (resolved_range scene avs mpath).2 - (resolved_range scene avs mpath).1 =
            ((((resolved_range scene avs mpath).2 -
                (resolved_range scene avs mpath).1).toNat : ℕ) : ℤ) := by
          omega
        have e2 : avs.path_step = ((avs.path_step.toNat : ℕ) : ℤ) := by omega
        rw [e1, e2]
        have e3 : ((((resolved_range scene avs mpath).2 -
                (resolved_range scene avs mpath).1).toNat : ℕ) : ℤ) +
              ((avs.path_step.toNat : ℕ) : ℤ) - 1 =
            ((((resolved_range scene avs mpath).2 - (resolved_range scene avs mpath).1).toNat +
               avs.path_step.toNat - 1 : ℕ) : ℤ) := by
          omega
        rw [e3, Nat.ceilDiv_eq_add_pred_div]
        exact (Int.ofNat_tdiv _ _).symm
      · exact (ceilDiv_bounds _ _ hS hL).1
      · exact (ceilDiv_bounds _ _ hS hL).2

/-- Witness for C4: with resolved range [5, 10] (length 5) and step 2 the
pass emits 3 = ceil(5 / 2) dots. -/
theorem C4_step_dot_count_witness :
    1 ≤ exWinMid.path_step ∧
    (draw_motion_path_instance exScene exObj none exWinMid exCachePts exGL).isSome = true ∧
    (draw_motion_path_instance exScene exObj none exWinMid exCachePts exGL).map
        (fun r => r.stepDots.length) =
      some (rangeLen exScene exWinMid exCachePts ⌈/⌉ exWinMid.path_step.toNat) ∧
    rangeLen exScene exWinMid exCachePts ⌈/⌉ exWinMid.path_step.toNat = 3 :=
  ⟨by decide, by decide,
   (C4_step_dot_count exScene exObj none exWinMid exCachePts exGL (by decide) (by decide)).2.1,
   by decide⟩

/-- Claim C5: when the path carries MOTIONPATH_FLAG_CUSTOM, the
per-vertex color chosen by set_motion_path_color — called as
draw_motion_path_instance calls it, with the three precomputed custom
colors 0.25, 0.5 and 1.0 times the base color — is componentwise 0.25
times the base color for frames before the current frame, 0.5 times the
base color for the current frame, and 1.0 times the base color for frames
after it.  The last three conjuncts spell out the componentwise
scaling. -/
theorem C5_custom_color_scaling (scene : Scene) (mpath : bMotionPath) (i : ℤ) (sel : Bool)
    (sfra efra : ℤ) (hc : mpath.flag_custom = true) :
    (sfra + i < CFRA scene →
      set_motion_path_color scene mpath i sel sfra efra
          (mul_v3_v3fl mpath.color (25/100)) (mul_v3_v3fl mpath.color (50/100))
          (copy_v3_v3 mpath.color) =
        PathVertColor.custom (mul_v3_v3fl mpath.color (25/100))) ∧
    (sfra + i = CFRA scene →
      set_motion_path_color scene mpath i sel sfra efra
          (mul_v3_v3fl mpath.color (25/100)) (mul_v3_v3fl mpath.color (50/100))
          (copy_v3_v3 mpath.color) =
        PathVertColor.custom (mul_v3_v3fl mpath.color (50/100))) ∧
    (CFRA scene < sfra + i →
      set_motion_path_color scene mpath i sel sfra efra
          (mul_v3_v3fl mpath.color (25/100)) (mul_v3_v3fl mpath.color (50/100))
          (copy_v3_v3 mpath.color) =
        PathVertColor.custom (copy_v3_v3 mpath.color)) ∧
    mul_v3_v3fl mpath.color (25/100) =
      ⟨25/100 * mpath.color.x, 25/100 * mpath.color.y, 25/100 * mpath.color.z⟩ ∧
    mul_v3_v3fl mpath.color (50/100) =
      ⟨50/100 * mpath.color.x, 50/100 * mpath.color.y, 50/100 * mpath.color.z⟩ ∧
    copy_v3_v3 mpath.color = ⟨1 * mpath.color.x, 1 * mpath.color.y, 1 * mpath.color.z⟩ := by
  refine ⟨fun h => ?_, fun h => ?_, fun h => ?_, rfl, rfl, ?_⟩
  · simp [set_motion_path_color, hc, h]
  · simp [set_motion_path_color, hc, h]
  · have hnlt : ¬(sfra + i < CFRA scene) := by omega
    simp [set_motion_path_color, hc, h, hnlt]
  · simp [copy_v3_v3]

/-- Witness for C5: with base color (1, 1/2, 1/4), current frame 5 and
frame sfra + i = 3 in the past, the chosen color is 0.25 times the base
color. -/
theorem C5_custom_color_scaling_witness :
    exCacheCustom.flag_custom = true ∧ (3 : ℤ) + 0 < CFRA exScene ∧
    set_motion_path_color exScene exCacheCustom 0 false 3 10
        (mul_v3_v3fl exCacheCustom.color (25/100)) (mul_v3_v3fl exCacheCustom.color (50/100))
        (copy_v3_v3 exCacheCustom.color) =
      PathVertColor.custom (mul_v3_v3fl exCacheCustom.color (25/100)) :=
  ⟨by decide, by decide,
   (C5_custom_color_scaling exScene exCacheCustom 0 false 3 10 (by decide)).1 (by decide)⟩

/-- Claim C6: the per-vertex colorizer set_motion_path_color is
deterministic and stateless: two calls with identical inputs produce the
identical color.  The embedding is a pure function of exactly the listed
inputs (the current frame enters through the scene argument, and theme
lookups are part of the returned value rather than hidden state), so no
state can be retained between calls. -/
theorem C6_colorizer_deterministic (scene₁ scene₂ : Scene) (mpath₁ mpath₂ : bMotionPath)
    (i₁ i₂ : ℤ) (sel₁ sel₂ : Bool) (sfra₁ sfra₂ efra₁ efra₂ : ℤ)
    (p₁ p₂ f₁ f₂ n₁ n₂ : Vec3)
    (h : (scene₁, mpath₁, i₁, sel₁, sfra₁, efra₁, p₁, f₁, n₁) =
         (scene₂, mpath₂, i₂, sel₂, sfra₂, efra₂, p₂, f₂, n₂)) :
    set_motion_path_color scene₁ mpath₁ i₁ sel₁ sfra₁ efra₁ p₁ f₁ n₁ =
    set_motion_path_color scene₂ mpath₂ i₂ sel₂ sfra₂ efra₂ p₂ f₂ n₂ := by
  simp only [Prod.mk.injEq] at h
  obtain ⟨h1, h2, h3, h4, h5, h6, h7, h8, h9⟩ := h
  subst h1; subst h2; subst h3; subst h4; subst h5; subst h6; subst h7; subst h8; subst h9
  rfl

/-- Witness for C6 at a concrete input pair. -/
theorem C6_colorizer_deterministic_witness :
    set_motion_path_color exScene exCacheCustom 2 true 1 10 v3zero v3zero v3zero =
    set_motion_path_color exScene exCacheCustom 2 true 1 10 v3zero v3zero v3zero :=
  C6_colorizer_deterministic exScene exScene exCacheCustom exCacheCustom 2 2 true true
    1 1 10 10 v3zero v3zero v3zero v3zero v3zero v3zero rfl

/-- Counterexample to claim C7 as stated: with the line flag set and
resolved range [5, 10], the emitted line strip has 5 vertices, while the
inclusive range [5, 10] has 6 frames — frame efra = 10 receives no
line-strip vertex, so the strip does not contain one vertex for every
frame of [sfra, efra]. -/
theorem C7_counterexample :
    exCachePts.flag_lines = true ∧
    (draw_motion_path_instance exScene exObj none exWinMid exCachePts exGL).map
        (fun r => r.lineStrip.map List.length) = some (some 5) ∧
    (resolved_range exScene exWinMid exCachePts).2 -
      (resolved_range exScene exWinMid exCachePts).1 + 1 = 6 ∧
    (5 : ℤ) ≠ 6 := by
  refine ⟨by decide, by decide, by decide, by decide⟩

/-- Claim C7 as amended: on every call that reaches the drawing stage, a
line strip is emitted if and only if MOTIONPATH_FLAG_LINES is set, and
the strip then contains exactly len = efra - sfra vertices — one
per-vertex-colored vertex for every frame of the half-open range
[sfra, efra), the vertex of frame sfra + k being colored by
set_motion_path_color at loop index k and placed at buffer index
sind + k. -/
theorem C7_line_strip_amended (scene : Scene) (ob : Object) (pchan : Option PoseChannel)
    (avs : bAnimVizSettings) (mpath : bMotionPath) (gl : GLState)
    (h : (draw_motion_path_instance scene ob pchan avs mpath gl).isSome = true) :
    (draw_motion_path_instance scene ob pchan avs mpath gl).map (fun r => r.lineStrip.isSome) =
      some mpath.flag_lines ∧
    (mpath.flag_lines = true →
      (draw_motion_path_instance scene ob pchan avs mpath gl).map
          (fun r => r.lineStrip.map List.length) =
        some (some (rangeLen scene avs mpath))) ∧
    (mpath.flag_lines = true → ∀ k : ℕ, k < rangeLen scene avs mpath →
      (draw_motion_path_instance scene ob pchan avs mpath gl).map
          (fun r => (r.lineStrip.getD [])[k]?) =
        some (some
          (set_motion_path_color scene mpath (Int.ofNat k) (selFlag ob pchan)
              (resolved_range scene avs mpath).1 (resolved_range scene avs mpath).2
              (mul_v3_v3fl mpath.color (25/100)) (mul_v3_v3fl mpath.color (50/100))
              (copy_v3_v3 mpath.color),
           (mpath.points.getD []).getD (startIndex scene avs mpath + k) v3zero))) := by
  unfold rangeLen startIndex
  unfold draw_motion_path_instance at h ⊢
  dsimp only at h ⊢
  by_cases hb : range_out_of_bounds mpath (resolved_range scene avs mpath)
  · rw [if_pos hb] at h
    simp at h
  · rw [if_neg hb] at h ⊢
    by_cases hlen : ((resolved_range scene avs mpath).2 - (resolved_range scene avs mpath).1 ≤ 0 ∨
        mpath.points = none)
    · rw [if_pos hlen] at h
      simp at h
    · rw [if_neg hlen] at h ⊢
      by_cases hl : mpath.flag_lines = true
      · refine ⟨?_, fun _ => ?_, fun _ k hk => ?_⟩
        · simp [hl]
        · simp [hl, lineStripVerts]
        · simp only [Option.map_some', if_pos hl]
          congr 1
          simp [lineStripVerts, List.getElem?_map, List.getElem?_range hk]
      · refine ⟨?_, fun hcon => absurd hcon hl, fun hcon => absurd hcon hl⟩
        simp [hl]

/-- Witness for the amended C7: with the line flag set and resolved range
[5, 10], a strip is emitted and has exactly 5 = efra - sfra vertices. -/
theorem C7_line_strip_amended_witness :
    (draw_motion_path_instance exScene exObj none exWinMid exCachePts exGL).isSome = true ∧
    exCachePts.flag_lines = true ∧
    (draw_motion_path_instance exScene exObj none exWinMid exCachePts exGL).map
        (fun r => r.lineStrip.isSome) = some exCachePts.flag_lines ∧
    (draw_motion_path_instance exScene exObj none exWinMid exCachePts exGL).map
        (fun r => r.lineStrip.map List.length) =
      some (some (rangeLen exScene exWinMid exCachePts)) :=
  ⟨by decide, by decide,
   (C7_line_strip_amended exScene exObj none exWinMid exCachePts exGL (by decide)).1,
   (C7_line_strip_amended exScene exObj none exWinMid exCachePts exGL (by decide)).2.1 rfl⟩

/-- Counterexample to claim C8 as stated: on a call that draws (line flag
set, no marker), starting from line width 1 and point size 1, the GL
state at return is line width 1 but point size 3 = line_thickness + 1:
the point size set for the dot passes is never restored, so not every
mutation of the shared GL state is undone before returning. -/
theorem C8_counterexample :
    (draw_motion_path_instance exScene exObj none exWinMid exCachePts exGL).map
        (fun r => (applyGLEvents exGL r.glEvents).pointSize) =
      some (exCachePts.line_thickness + 1) ∧
    (draw_motion_path_instance exScene exObj none exWinMid exCachePts exGL).map
        (fun r => (applyGLEvents exGL r.glEvents).lineWidth) = some exGL.lineWidth ∧
    exCachePts.line_thickness + 1 ≠ exGL.pointSize := by
  refine ⟨rfl, rfl, ?_⟩
  show (2 : ℚ) + 1 ≠ 1
  norm_num

/-- Claim C8 as amended: on every call that reaches the drawing stage,
the saved line width is restored (the line width at return equals the
line width on entry, the restore happening right after the line-strip
emission), but the point size is not restored: at return it is
line_thickness + 5 when the current-frame marker was drawn and
line_thickness + 1 otherwise. -/
theorem C8_gl_state_amended (scene : Scene) (ob : Object) (pchan : Option PoseChannel)
    (avs : bAnimVizSettings) (mpath : bMotionPath) (gl : GLState)
    (h : (draw_motion_path_instance scene ob pchan avs mpath gl).isSome = true) :
    (draw_motion_path_instance scene ob pchan avs mpath gl).map
        (fun r => applyGLEvents gl r.glEvents) =
      some ⟨gl.lineWidth,
            if avs.viewflag_kfras = true ∧
                 (resolved_range scene avs mpath).1 < CFRA scene ∧
                 CFRA scene ≤ (resolved_range scene avs mpath).2
            then mpath.line_thickness + 5
            else mpath.line_thickness + 1⟩ := by
  unfold draw_motion_path_instance at h ⊢
  dsimp only at h ⊢
  split_ifs at h ⊢
  all_goals try simp_all [applyGLEvents, applyGLEvent]

/-- Witness for the amended C8: a drawing call with marker (current frame
6 inside [5, 10]) returns with line width restored to 1 and point size
line_thickness + 5 = 7. -/
theorem C8_gl_state_amended_witness :
    (draw_motion_path_instance exScene6 exObj none exWinMid exCachePts exGL).isSome = true ∧
    (draw_motion_path_instance exScene6 exObj none exWinMid exCachePts exGL).map
        (fun r => applyGLEvents exGL r.glEvents) =
      some ⟨exGL.lineWidth,
            if exWinMid.viewflag_kfras = true ∧
                 (resolved_range exScene6 exWinMid exCachePts).1 < CFRA exScene6 ∧
                 CFRA exScene6 ≤ (resolved_range exScene6 exWinMid exCachePts).2
            then exCachePts.line_thickness + 5
            else exCachePts.line_thickness + 1⟩ :=
  ⟨by decide,
   C8_gl_state_amended exScene6 exObj none exWinMid exCachePts exGL (by decide)⟩

/-- Claim C9: on every call that reaches the drawing stage,
draw_motion_path_instance overwrites the imat field of the object with
the inverse of its obmat (leaving its other fields unchanged), while the
motion-path cache and the visualization settings are returned exactly as
received. -/
theorem C9_imat_overwrite (scene : Scene) (ob : Object) (pchan : Option PoseChannel)
    (avs : bAnimVizSettings) (mpath : bMotionPath) (gl : GLState)
    (h : (draw_motion_path_instance scene ob pchan avs mpath gl).isSome = true) :
    (draw_motion_path_instance scene ob pchan avs mpath gl).map
        (fun r => (r.ob_out, r.mpath_out, r.avs_out)) =
      some ({ ob with imat := invert_m4_m4 ob.obmat }, mpath, avs) := by
  unfold draw_motion_path_instance at h ⊢
  dsimp only at h ⊢
  split_ifs at h ⊢
  all_goals try rfl
  all_goals simp at h

/-- Witness for C9 at a concrete drawing call. -/
theorem C9_imat_overwrite_witness :
    (draw_motion_path_instance exScene exObj none exWinMid exCachePts exGL).isSome = true ∧
    (draw_motion_path_instance exScene exObj none exWinMid exCachePts exGL).map
        (fun r => (r.ob_out, r.mpath_out, r.avs_out)) =
      some ({ exObj with imat := invert_m4_m4 exObj.obmat }, exCachePts, exWinMid) :=
  ⟨by decide,
   C9_imat_overwrite exScene exObj none exWinMid exCachePts exGL (by decide)⟩

/-- Claim C10: when the clamped window overlaps the cache in exactly one
frame (resolved sfra equals resolved efra, so len = efra - sfra is 0),
draw_motion_path_instance returns before issuing any draw call, just as
it does when the point buffer of the path is NULL. -/
theorem C10_single_frame_noop (scene : Scene) (ob : Object) (pchan : Option PoseChannel)
    (avs : bAnimVizSettings) (mpath : bMotionPath) (gl : GLState)
    (h : (resolved_range scene avs mpath).1 = (resolved_range scene avs mpath).2 ∨
         mpath.points = none) :
    draw_motion_path_instance scene ob pchan avs mpath gl = none := by
  unfold draw_motion_path_instance
  dsimp only
  split_ifs with h1 h2
  · rfl
  · rfl
  · exfalso
    rcases h with h | h
    · exact h2 (Or.inl (by omega))
    · exact h2 (Or.inr h)

/-- Witness for C10: cache range [1, 100] and requested window [100, 120]
overlap in the single frame 100, and no draw calls are issued. -/
theorem C10_single_frame_noop_witness :
    (resolved_range exScene exWinOne exCache).1 = (resolved_range exScene exWinOne exCache).2 ∧
    draw_motion_path_instance exScene exObj none exWinOne exCache exGL = none :=
  ⟨by decide,
   C10_single_frame_noop exScene exObj none exWinOne exCache exGL (Or.inl (by decide))⟩

end AnimViz
